import Mathlib

/- Verification of the ufo-filter tag-substitution engine
   (Python source: ufo_filter/__init__.py and bin/filter.py).

   The source is shallowly embedded: its regular expressions are embedded
   through a small backtracking matcher reproducing Python `re` semantics
   for the constructs those patterns use (leftmost match, ordered
   alternation, greedy class repetition with backtracking, numbered
   capture groups, `^`/`$` without MULTILINE); the engine's class and
   functions become pure Lean functions, Python exceptions become an
   explicit error type, and the unbounded substitution loop takes a fuel
   parameter (running out of fuel is a distinct error, never a result the
   theorems rely on).  Lines read from files are represented with their
   trailing newline stripped; on such lines Python's `$` is exactly
   end-of-input and `.` matches every remaining character, which is how
   the matcher below defines them. -/

namespace UfoFilter

/-- Numbered capture groups: (group index, start, stop).  The most recent
entry for an index shadows older ones; backtracking is handled by the
matcher passing each branch its own list. -/
abbrev Caps := List (Nat × Nat × Nat)

def capGet (g : Caps) (n : Nat) : Option (Nat × Nat) :=
  (g.find? (fun x => x.1 == n)).map (fun x => x.2)

/-- Regular-expression syntax covering exactly the constructs appearing in
the source's patterns.  Character classes are predicates; `starCh` is a
greedy repetition of a character class (every `*` and `+` in the source
applies to a single-character class or to `.`). -/
inductive RE where
  | eps
  | bol
  | eol
  | ch (c : Char)
  | cls (f : Char → Bool)
  | seq (a b : RE)
  | alt (a b : RE)
  | opt (a : RE)
  | starCh (f : Char → Bool)
  | grp (n : Nat) (a : RE)

/-- Length of the maximal run of class characters at the head of a list. -/
def runLen (f : Char → Bool) : List Char → Nat
  | [] => 0
  | c :: rest => if f c then runLen f rest + 1 else 0

/-- Greedy backtracking over a repetition count: try the longest first. -/
def tryLens (k : Nat → Option (Nat × Caps)) : Nat → Option (Nat × Caps)
  | 0 => k 0
  | m + 1 => (k (m + 1)).orElse (fun _ => tryLens k m)

/-- Backtracking matcher in continuation-passing style: ordered
alternation, greedy `?` and class repetition, capture groups recorded when
their subpattern succeeds (each branch carries its own capture list). -/
def matchRe (input : List Char) : RE → Nat → Caps → (Nat → Caps → Option (Nat × Caps)) → Option (Nat × Caps)
  | .eps, p, g, k => k p g
  | .bol, p, g, k => if p == 0 then k p g else none
  | .eol, p, g, k => if p == input.length then k p g else none
  | .ch c, p, g, k =>
      match input[p]? with
      | some d => if d == c then k (p + 1) g else none
      | none => none
  | .cls f, p, g, k =>
      match input[p]? with
      | some d => if f d then k (p + 1) g else none
      | none => none
  | .seq a b, p, g, k => matchRe input a p g (fun p2 g2 => matchRe input b p2 g2 k)
  | .alt a b, p, g, k => (matchRe input a p g k).orElse (fun _ => matchRe input b p g k)
  | .opt a, p, g, k => (matchRe input a p g k).orElse (fun _ => k p g)
  | .starCh f, p, g, k => tryLens (fun j => k (p + j) g) (runLen f (input.drop p))
  | .grp n a, p, g, k => matchRe input a p g (fun p2 g2 => k p2 ((n, p, p2) :: g2))

def matchAt (input : List Char) (r : RE) (p : Nat) : Option (Nat × Caps) :=
  matchRe input r p [] (fun q g => some (q, g))

def searchAux (input : List Char) (r : RE) : List Nat → Option (Nat × Nat × Caps)
  | [] => none
  | p :: rest =>
      match matchAt input r p with
      | some (q, g) => some (p, q, g)
      | none => searchAux input r rest

/-- Python `re.search`: the leftmost position admitting a match wins. -/
def reSearch (input : List Char) (r : RE) : Option (Nat × Nat × Caps) :=
  searchAux input r (List.range (input.length + 1))

/-- Python `re.match`: anchored at position 0. -/
def reMatch (input : List Char) (r : RE) : Option (Nat × Caps) :=
  matchAt input r 0

def capStr (input : List Char) (g : Caps) (n : Nat) : Option String :=
  (capGet g n).map (fun se => String.mk ((input.drop se.1).take (se.2 - se.1)))

def capStart (g : Caps) (n : Nat) : Nat :=
  match capGet g n with
  | some se => se.1
  | none => 0

/- Character classes of the source's patterns. -/

def isNsChar (c : Char) : Bool := c == '_' || c == '.' || c.isAlpha || c.isDigit

def isTagStart (c : Char) : Bool := c == '_' || c.isAlpha

def isTagRest (c : Char) : Bool :=
  c == '_' || c.isDigit || c.isAlpha || c == ' ' || c == '-'

def isArgChar (c : Char) : Bool :=
  c == '_' || c == '.' || c.isDigit || c == '/' || c == '=' || c == '$' || c == '@' ||
  c == '<' || c == '>' || c == '(' || c == ')' || c.isAlpha || c == ' ' || c == '-' || c == ','

def isTdTagRest (c : Char) : Bool :=
  c == '(' || c == ')' || c == '_' || c.isDigit || c.isAlpha || c == ' ' || c == '-'

def isQuote (c : Char) : Bool := c == '\'' || c == '\"'

def notNl (c : Char) : Bool := c != '\n'

/-- The class `[^\'^\".]` of the yaml pattern: anything but a quote, a
caret, a double quote or a dot. -/
def isYamlVal (c : Char) : Bool := !(c == '\'' || c == '^' || c == '\"' || c == '.')

def reLit (s : String) : RE := s.data.foldr (fun c acc => RE.seq (RE.ch c) acc) RE.eps

def plusCh (f : Char → Bool) : RE := RE.seq (RE.cls f) (RE.starCh f)

/-- The tag reference pattern `rex`:
`(^|[^@]|@@@|@@@@@@)@((([_\.a-zA-Z0-9]+)\.)?([_a-zA-Z]+[_0-9a-zA-Z \-]*)(\(([_\.0-9/=$@<>()a-zA-Z \-,]*)\))?)@`
with Python's group numbering (1 boundary, 2 whole tag body, 3 namespace
with dot, 4 namespace, 5 tag name, 6 parenthesized arguments, 7 argument
text). -/
def rex : RE :=
  .seq (.grp 1 (.alt .bol (.alt (.cls (fun c => c != '@')) (.alt (reLit "@@@") (reLit "@@@@@@")))))
  (.seq (.ch '@')
  (.seq (.grp 2 (.seq (.opt (.grp 3 (.seq (.grp 4 (plusCh isNsChar)) (.ch '.'))))
                (.seq (.grp 5 (.seq (.cls isTagStart) (.seq (.starCh isTagStart) (.starCh isTagRest))))
                      (.opt (.grp 6 (.seq (.ch '(') (.seq (.grp 7 (.starCh isArgChar)) (.ch ')'))))))))
  (.ch '@')))

/-- The native tag definition pattern `tdrex`:
`^(([_\.a-zA-Z0-9]*)\.)?([_a-zA-Z]+[()_0-9a-zA-Z \-]*)[\t]+(.*)$`. -/
def tdrex : RE :=
  .seq .bol
  (.seq (.opt (.grp 1 (.seq (.grp 2 (.starCh isNsChar)) (.ch '.'))))
  (.seq (.grp 3 (.seq (.cls isTagStart) (.seq (.starCh isTagStart) (.starCh isTdTagRest))))
  (.seq (plusCh (fun c => c == '\t'))
  (.seq (.grp 4 (.starCh notNl)) .eol))))

/-- The EB env file pattern `ebrex`:
`^export (([_\.a-zA-Z0-9]*)\.)?([_a-zA-Z]+[()_0-9a-zA-Z \-]*)=[\'\"](.*)[\'\"]$`. -/
def ebrex : RE :=
  .seq .bol
  (.seq (reLit "export ")
  (.seq (.opt (.grp 1 (.seq (.grp 2 (.starCh isNsChar)) (.ch '.'))))
  (.seq (.grp 3 (.seq (.cls isTagStart) (.seq (.starCh isTagStart) (.starCh isTdTagRest))))
  (.seq (.ch '=')
  (.seq (.cls isQuote)
  (.seq (.grp 4 (.starCh notNl))
  (.seq (.cls isQuote) .eol)))))))

/-- The yaml pattern `yamlrex`:
`^(([_\.a-zA-Z0-9]*)\.)?([_a-zA-Z]+[()_0-9a-zA-Z \-]*)=[\'\"]?([^\'^\".]*)[\'\"]?$`. -/
def yamlrex : RE :=
  .seq .bol
  (.seq (.opt (.grp 1 (.seq (.grp 2 (.starCh isNsChar)) (.ch '.'))))
  (.seq (.grp 3 (.seq (.cls isTagStart) (.seq (.starCh isTagStart) (.starCh isTdTagRest))))
  (.seq (.ch '=')
  (.seq (.opt (.cls isQuote))
  (.seq (.grp 4 (.starCh isYamlVal))
  (.seq (.opt (.cls isQuote)) .eol))))))

/-- `atx.sub('@', line)`: replace each non-overlapping `@@@` (leftmost
first) by a single `@`. -/
def unescapeAts : List Char → List Char
  | '@' :: '@' :: '@' :: rest => '@' :: unescapeAts rest
  | c :: rest => c :: unescapeAts rest
  | [] => []

/-- `rex.sub(repl, s, 1)` with the replacement inserted literally (no
template escape occurs in the replacement texts of the claims). -/
def reSub1 (r : RE) (repl : String) (s : List Char) : List Char :=
  match reSearch s r with
  | none => s
  | some (ms, me, _) => s.take ms ++ repl.data ++ s.drop me

/- Error model: each constructor stands for one family of Python
exceptions raised (or re-raised) by the source.  `unknownContext` mirrors
the source's UnknownContext class, whose only raise site is commented out;
no function below ever produces it. -/
inductive Err where
  | valueError (tag : String)
  | valueError2 (tag line : String)
  | unknownContext (ns : String)
  | invalidReplacement (msg : String)
  | exception (msg : String)
  | typeError (msg : String)
  | attributeError (msg : String)
  | indexError (msg : String)
  | outOfFuel
deriving DecidableEq, Repr

/-- Python values a Context attribute access can yield.  Non-text objects
(lists, dicts, the parent Context, the compiled regex, bound methods) are
marked with their kind: no claim inspects their contents, only whether the
replacement machinery hands them back or calls them. -/
inductive PyVal where
  | str (s : String)
  | pyNone
  | pyBool (b : Bool)
  | listObj
  | dictObj
  | contextObj
  | regexObj
  | boundMethod (name : String)
deriving DecidableEq, Repr

/-- The three known tag definition formats, keys of `tdrexes`. -/
inductive TDFmt where
  | nv_tab
  | eb_env
  | nv_yaml
deriving DecidableEq, Repr

def fmtRE : TDFmt → RE
  | .nv_tab => tdrex
  | .eb_env => ebrex
  | .nv_yaml => yamlrex

/-- The `Context` object.  `attrs` is the part of the instance dictionary
written by `setattr` in `tagDefine` (user tag bindings); the attributes
set in `__init__` are the named fields, consulted after `attrs` so that a
`setattr` with the same name shadows them exactly as in a Python instance
dictionary.  `methods` are replacement methods added by subclassing;
`tdrexSel` is the currently selected tag definition pattern (`self.tdrex`).
The parent pointer carries no information any claim needs (the root points
to itself) and is represented in attribute lookups by `PyVal.contextObj`. -/
inductive Context where
  | mk (ALLOW_UNKNOWN_TAGS ALLOW_DEFAULT_TAGS ALLOW_TAG_OVERRIDES ENABLE_TAG_APPENDS
        ALLOW_TAG_DEFAULTS AUTO_SELECT_TD : Bool)
      (name : String)
      (tagNames : List String)
      (tagDefaults : List (String × String))
      (dirname : List String)
      (tdrexSel : TDFmt)
      (attrs : List (String × PyVal))
      (methods : List (String × (List String → Except Err PyVal)))
      (subcontexts : List (String × Context))

def Context.ALLOW_UNKNOWN_TAGS : Context → Bool
  | .mk v _ _ _ _ _ _ _ _ _ _ _ _ _ => v

def Context.ALLOW_DEFAULT_TAGS : Context → Bool
  | .mk _ v _ _ _ _ _ _ _ _ _ _ _ _ => v

def Context.ALLOW_TAG_OVERRIDES : Context → Bool
  | .mk _ _ v _ _ _ _ _ _ _ _ _ _ _ => v

def Context.ENABLE_TAG_APPENDS : Context → Bool
  | .mk _ _ _ v _ _ _ _ _ _ _ _ _ _ => v

def Context.ALLOW_TAG_DEFAULTS : Context → Bool
  | .mk _ _ _ _ v _ _ _ _ _ _ _ _ _ => v

def Context.AUTO_SELECT_TD : Context → Bool
  | .mk _ _ _ _ _ v _ _ _ _ _ _ _ _ => v

def Context.name : Context → String
  | .mk _ _ _ _ _ _ v _ _ _ _ _ _ _ => v

def Context.tagNames : Context → List String
  | .mk _ _ _ _ _ _ _ v _ _ _ _ _ _ => v

def Context.tagDefaults : Context → List (String × String)
  | .mk _ _ _ _ _ _ _ _ v _ _ _ _ _ => v

def Context.dirname : Context → List String
  | .mk _ _ _ _ _ _ _ _ _ v _ _ _ _ => v

def Context.tdrexSel : Context → TDFmt
  | .mk _ _ _ _ _ _ _ _ _ _ v _ _ _ => v

def Context.attrs : Context → List (String × PyVal)
  | .mk _ _ _ _ _ _ _ _ _ _ _ v _ _ => v

def Context.methods : Context → List (String × (List String → Except Err PyVal))
  | .mk _ _ _ _ _ _ _ _ _ _ _ _ v _ => v

def Context.subcontexts : Context → List (String × Context)
  | .mk _ _ _ _ _ _ _ _ _ _ _ _ _ v => v

/-- Association-list lookup, the shape of a Python dictionary read. -/
def alookup {α : Type} (l : List (String × α)) (k : String) : Option α :=
  (l.find? (fun x => x.1 == k)).map (fun x => x.2)

/-- Python dictionary write `d[k] = v`: overwrite in place or append. -/
def aset {α : Type} (l : List (String × α)) (k : String) (v : α) : List (String × α) :=
  if (l.find? (fun x => x.1 == k)).isSome
  then l.map (fun x => if x.1 == k then (k, v) else x)
  else l ++ [(k, v)]

/-- `Context.__init__` for a root context (`parent=None`: the root keeps
the module-level `tdrex`, that is the nv_tab format). -/
def freshContext (nm : String) : Context :=
  .mk false true false false true true nm [] [] ["."] .nv_tab [] [] []

/-- `Context.__init__` with a parent: the child inherits `parent.tdrex`. -/
def newChildContext (nm : String) (parent : Context) : Context :=
  .mk false true false false true true nm [] [] ["."] parent.tdrexSel [] [] []

def Context.getContext (ctx : Context) (n : String) : Option Context :=
  alookup ctx.subcontexts n

/-- Methods of the Context class, part of every `hasattr` test. -/
def builtinMethodNames : List String :=
  ["curdir", "pushdir", "popdir", "getParent", "getContext", "addContext", "isDefined",
   "replace", "tagDefault", "getDefault", "tagDefine", "autoSelectTD", "loadTagDefs",
   "list", "loadKeyedTagDefs"]

/-- Instance attributes set in `Context.__init__`, as read by `getattr`.
The flag attributes hold ints/booleans in the source; the remaining
non-text objects are represented by their kind markers. -/
def builtinInstanceAttr (ctx : Context) (n : String) : Option PyVal :=
  if n == "ALLOW_UNKNOWN_TAGS" then some (.pyBool ctx.ALLOW_UNKNOWN_TAGS)
  else if n == "ALLOW_DEFAULT_TAGS" then some (.pyBool ctx.ALLOW_DEFAULT_TAGS)
  else if n == "ALLOW_TAG_OVERRIDES" then some (.pyBool ctx.ALLOW_TAG_OVERRIDES)
  else if n == "ENABLE_TAG_APPENDS" then some (.pyBool ctx.ENABLE_TAG_APPENDS)
  else if n == "ALLOW_TAG_DEFAULTS" then some (.pyBool ctx.ALLOW_TAG_DEFAULTS)
  else if n == "AUTO_SELECT_TD" then some (.pyBool ctx.AUTO_SELECT_TD)
  else if n == "name" then some (.str ctx.name)
  else if n == "tagNames" then some .listObj
  else if n == "tagDefaults" then some .dictObj
  else if n == "dirname" then some .listObj
  else if n == "parent" then some .contextObj
  else if n == "tdrex" then some .regexObj
  else if n == "subcontexts" then some .dictObj
  else none

/-- `hasattr(self, tag)`: a user binding, an `__init__` attribute, a
subclass replacement method, or a Context method. -/
def Context.hasattrB (ctx : Context) (n : String) : Bool :=
  (alookup ctx.attrs n).isSome || (builtinInstanceAttr ctx n).isSome ||
  (alookup ctx.methods n).isSome || builtinMethodNames.contains n

/-- Accepted argument counts of each Context method (self excluded);
`replace` has a defaulted second parameter. -/
def builtinArity : String → List Nat
  | "curdir" => [0]
  | "pushdir" => [1]
  | "popdir" => [0]
  | "getParent" => [0]
  | "getContext" => [1]
  | "addContext" => [1]
  | "isDefined" => [1]
  | "replace" => [1, 2]
  | "tagDefault" => [2]
  | "getDefault" => [1]
  | "tagDefine" => [2]
  | "autoSelectTD" => [1]
  | "loadTagDefs" => [1]
  | "list" => [0]
  | "loadKeyedTagDefs" => [2]
  | _ => []

/-- Invocation of a bound Context method as a replacement function, with
string arguments as `replace` passes them.  A wrong argument count raises
TypeError as in Python.  Methods that mutate the context or re-enter the
engine (`pushdir`, `tagDefault`, `replace` with arguments, the loaders)
are represented by their return value where that is a plain object and by
a distinct error where re-entry would be needed; no claim invokes those. -/
def invokeBuiltin (ctx : Context) (n : String) (args : List String) : Except Err PyVal :=
  match n, args with
  | "curdir", [] =>
      match ctx.dirname.getLast? with
      | some d => .ok (.str d)
      | none => .error (.indexError "curdir")
  | "popdir", [] =>
      match ctx.dirname.getLast? with
      | some d => .ok (.str d)
      | none => .error (.indexError "popdir")
  | "pushdir", [_] => .ok .pyNone
  | "getParent", [] => .ok .contextObj
  | "getContext", [m] =>
      .ok (match ctx.getContext m with
        | some _ => .contextObj
        | none => .pyNone)
  | "addContext", [_] => .error (.attributeError "addContext")
  | "isDefined", [t] => .ok (.pyBool (ctx.hasattrB t))
  | "tagDefault", [_, _] => .ok .pyNone
  | "getDefault", [t] =>
      .ok (match alookup ctx.tagDefaults t with
        | some v => .str v
        | none => .pyNone)
  | "list", [] => .ok .pyNone
  | m, a =>
      if builtinMethodNames.contains m then
        if (builtinArity m).contains a.length then .error (.exception "re-entrant engine call")
        else .error (.typeError m)
      else .error (.attributeError m)

/-- An attribute as `replace` sees it: either a plain value or something
callable. -/
inductive Attr where
  | val (v : PyVal)
  | fn (f : List String → Except Err PyVal)

/-- `getattr(self, n)` on a Context: the instance dictionary first (user
bindings shadow the `__init__` attributes), then the class dictionary
(subclass replacement methods, then Context methods). -/
def getattrM (ctx : Context) (n : String) : Option Attr :=
  match alookup ctx.attrs n with
  | some v => some (.val v)
  | none =>
    match builtinInstanceAttr ctx n with
    | some v => some (.val v)
    | none =>
      match alookup ctx.methods n with
      | some f => some (.fn f)
      | none =>
        if builtinMethodNames.contains n then some (.fn (invokeBuiltin ctx n)) else none

/-- `getattr` as a value, for the concatenation in `tagDefine`: a method
is a bound-method object there (adding a string to it raises TypeError). -/
def getattrVal (ctx : Context) (n : String) : Option PyVal :=
  match getattrM ctx n with
  | some (.val v) => some v
  | some (.fn _) => some (.boundMethod n)
  | none => none

/-- Python truthiness of an optional string: absent and empty are false. -/
def pyTruthyS : Option String → Bool
  | none => false
  | some s => !s.isEmpty

def removeSpaces (cs : List Char) : List Char := cs.filter (fun c => c != ' ')

/-- Python `string.split(s, ',')`: split on every comma, keeping empty
pieces (the result is never the empty list). -/
def splitComma : List Char → List (List Char)
  | [] => [[]]
  | c :: rest =>
      match splitComma rest with
      | h :: t => if c == ',' then [] :: h :: t else (c :: h) :: t
      | [] => [[c]]

/-- The argument processing in `Context.replace`:
`string.replace(argsv, ' ', '')` (delete every space) followed by
`string.split(argsv, ',')`. -/
def pyArgSplit (s : String) : List String :=
  (splitComma (removeSpaces s.data)).map (fun l => String.mk l)

def Context.getDefault (ctx : Context) (tag : String) : Option String :=
  alookup ctx.tagDefaults tag

/-- `Context.replace(gottag, argsv)`: attribute lookup; a callable gets the
comma-split despaced arguments (none when `argsv` is absent or empty); a
plain value is returned as is; otherwise the default table (when the flag
is set and the stored value is truthy), then unknown-tag passthrough, and
finally `raise ValueError(gottag)`. -/
def Context.replace (ctx : Context) (gottag : String) (argsv : Option String) : Except Err PyVal :=
  match getattrM ctx gottag with
  | some (.fn f) =>
      if pyTruthyS argsv then f (pyArgSplit (argsv.getD ""))
      else f []
  | some (.val v) => .ok v
  | none =>
      let dflt := if ctx.ALLOW_DEFAULT_TAGS then ctx.getDefault gottag else none
      if pyTruthyS dflt then .ok (.str (dflt.getD ""))
      else if ctx.ALLOW_UNKNOWN_TAGS then .ok (.str gottag)
      else .error (.valueError gottag)

def Context.withAttrsTagNames (ctx : Context) (a : List (String × PyVal)) (t : List String) : Context :=
  match ctx with
  | .mk f1 f2 f3 f4 f5 f6 nm _ td dn fmt _ me su => .mk f1 f2 f3 f4 f5 f6 nm t td dn fmt a me su

/-- `Context.tagDefine(tag, replacement)`: on an existing attribute either
override (warn), append with a `", "` separator (warn), or fail with the
bare `raise Exception` (the spec's DuplicateTagError); then `setattr` and
record the name. -/
def Context.tagDefine (ctx : Context) (tag : String) (replacement : String) : Except Err Context :=
  if ctx.hasattrB tag then
    if ctx.ALLOW_TAG_OVERRIDES then
      .ok (ctx.withAttrsTagNames (aset ctx.attrs tag (.str replacement)) (ctx.tagNames ++ [tag]))
    else if ctx.ENABLE_TAG_APPENDS then
      match getattrVal ctx tag with
      | some (.str old) =>
          .ok (ctx.withAttrsTagNames (aset ctx.attrs tag (.str (old ++ ", " ++ replacement)))
               (ctx.tagNames ++ [tag]))
      | _ => .error (.typeError "cannot concatenate non-string tag value")
    else .error (.exception "duplicate tag definition")
  else .ok (ctx.withAttrsTagNames (aset ctx.attrs tag (.str replacement)) (ctx.tagNames ++ [tag]))

/-- `lineParser(line, context)`: the multi-pass substitution loop.  Each
iteration searches for the first tag reference, recursively resolves a
truthy argument string, picks the scoped context (a missing namespace
prints a warning and downgrades the tag to "UNDEFINED"), resolves the tag,
and splices the replacement over the first match from the opening `@` of
the tag; when no reference remains, `@@@` runs are unescaped once.  A
ValueError from the resolution is re-raised as `ValueError(tag, line)`;
other exceptions are re-raised as a generic Exception with a banner.  The
module-level pre/post filter handlers are None throughout the source.
The `while` loop and the argument recursion both consume fuel. -/
def lineParser : Nat → String → Context → Except Err String
  | 0, _, _ => .error .outOfFuel
  | fuel + 1, line, context =>
    match reSearch line.data rex with
    | none => .ok (String.mk (unescapeAts line.data))
    | some (_, _, caps) =>
      let gotns := capStr line.data caps 4
      let gottag := (capStr line.data caps 5).getD ""
      let gotargv := capStr line.data caps 7
      let argRes : Except Err (Option String) :=
        if pyTruthyS gotargv then
          match lineParser fuel (gotargv.getD "") context with
          | .ok s => .ok (some s)
          | .error e => .error e
        else .ok gotargv
      match argRes with
      | .error e => .error e
      | .ok gotargv2 =>
        let pair : Context × String :=
          if pyTruthyS gotns then
            if context.name == "gotns" then (context, gottag)
            else
              match context.getContext (gotns.getD "") with
              | some tmpctx => (tmpctx, gottag)
              | none => (context, "UNDEFINED")
          else (context, gottag)
        match pair.1.replace pair.2 gotargv2 with
        | .ok (.str newtext) =>
            let start := capStart caps 2 - 1
            let line2 := String.mk (line.data.take start ++ reSub1 rex newtext (line.data.drop start))
            lineParser fuel line2 context
        | .ok _ => .error (.exception "caught exception while parsing")
        | .error (.valueError t) => .error (.valueError2 t line)
        | .error (.valueError2 t _) => .error (.valueError2 t line)
        | .error _ => .error (.exception "caught exception while parsing")

/-- Comment/blank skipping `line[0] != '#' and line[0] != '\n'` on a
newline-stripped line: a blank line is empty, a comment starts with #. -/
def lineSkipped (line : String) : Bool :=
  match line.data with
  | [] => true
  | c :: _ => c == '#'

def Context.withTdrex (ctx : Context) (f : TDFmt) : Context :=
  match ctx with
  | .mk f1 f2 f3 f4 f5 f6 nm tn td dn _ a me su => .mk f1 f2 f3 f4 f5 f6 nm tn td dn f a me su

def Context.withSubcontexts (ctx : Context) (su : List (String × Context)) : Context :=
  match ctx with
  | .mk f1 f2 f3 f4 f5 f6 nm tn td dn fmt a me _ => .mk f1 f2 f3 f4 f5 f6 nm tn td dn fmt a me su

def Context.addContext (ctx : Context) (child : Context) : Context :=
  ctx.withSubcontexts (aset ctx.subcontexts child.name child)

/-- `Context.autoSelectTD(infile)`: for each known format (CPython dict
key order is an implementation detail, so the order is a parameter), scan
the non-skipped lines and set `self.tdrex` on the first matching line;
`auto_rex` is never assigned in the source, so its early-exit branch is
dead and the outer loop always visits every format — the last matching
format in iteration order wins. -/
def autoSelectTD (order : List TDFmt) (lines : List String) (ctx : Context) : Context :=
  order.foldl
    (fun c f =>
      if lines.any (fun l => !lineSkipped l && (reMatch l.data (fmtRE f)).isSome) then c.withTdrex f
      else c)
    ctx

/-- Python `string.strip(val, ' \t')`. -/
def stripSpTab (s : String) : String :=
  String.mk (((s.data.dropWhile (fun c => c == ' ' || c == '\t')).reverse.dropWhile
    (fun c => c == ' ' || c == '\t')).reverse)

/-- One definition line inside the per-line try of `loadTagDefs`: skipped
lines and non-matching lines (warned) leave the context unchanged, a
namespaced tag finds or creates the child context, and `tagDefine` binds
the stripped value.  A caught ValueError means warn-and-continue (`.ok`
with the mutations made before the raise kept); any other exception
escapes the `except ValueError` clause and propagates. -/
def loadLine (ctx : Context) (line : String) : Except Err Context :=
  if lineSkipped line then .ok ctx
  else
    match reMatch line.data (fmtRE ctx.tdrexSel) with
    | none => .ok ctx
    | some (_, caps) =>
      let ns := capStr line.data caps 2
      let tag := (capStr line.data caps 3).getD ""
      let val := stripSpTab ((capStr line.data caps 4).getD "")
      if pyTruthyS ns then
        match ctx.getContext (ns.getD "") with
        | some child =>
          match child.tagDefine tag val with
          | .ok child2 => .ok (ctx.addContext child2)
          | .error (.valueError _) => .ok ctx
          | .error (.valueError2 _ _) => .ok ctx
          | .error e => .error e
        | none =>
          let child := newChildContext (ns.getD "") ctx
          let ctx2 := ctx.addContext child
          match child.tagDefine tag val with
          | .ok child2 => .ok (ctx2.addContext child2)
          | .error (.valueError _) => .ok ctx2
          | .error (.valueError2 _ _) => .ok ctx2
          | .error e => .error e
      else
        match ctx.tagDefine tag val with
        | .ok ctx2 => .ok ctx2
        | .error (.valueError _) => .ok ctx
        | .error (.valueError2 _ _) => .ok ctx
        | .error e => .error e

def loadLines : Context → List String → Except Err Context
  | ctx, [] => .ok ctx
  | ctx, l :: rest =>
      match loadLine ctx l with
      | .ok c2 => loadLines c2 rest
      | .error e => .error e

/-- `Context.loadTagDefs(infile)`: optional format auto-selection followed
by the line loop; `lines` are the file's lines, newline-stripped. -/
def loadTagDefs (order : List TDFmt) (ctx : Context) (lines : List String) : Except Err Context :=
  loadLines (if ctx.AUTO_SELECT_TD then autoSelectTD order lines ctx else ctx) lines

/-- Outcome of running bin/filter.py. -/
inductive CliResult where
  | usageExit
  | indexErrorCrash
  | run (tagfile infile outfile : String)
deriving DecidableEq, Repr

/-- The top level of bin/filter.py: `argc < 3` prints usage and exits 1;
otherwise `sys.argv[1]`, `sys.argv[2]`, `sys.argv[3]` are read in order,
the last raising an uncaught IndexError when there are only three entries;
with all three present, the program proceeds to load and parse. -/
def filterMain (argv : List String) : CliResult :=
  if argv.length < 3 then .usageExit
  else
    match argv[3]? with
    | none => .indexErrorCrash
    | some out => .run (argv.getD 1 "") (argv.getD 2 "") out

/-- Modelled from the spec: the argument split the spec describes for a
callable binding — split `argsText` on commas and trim only the spaces
surrounding each argument (spec 4.2, claim C2); stated for comparison with
the source's `pyArgSplit`. -/
def specArgSplit (s : String) : List String :=
  (splitComma s.data).map
    (fun l => String.mk (((l.dropWhile (fun c => c == ' ')).reverse.dropWhile
      (fun c => c == ' ')).reverse))

/-- Modelled from the spec: the format the claim C6 says auto-detection
adopts — the first format in iteration order for which some non-skipped
line matches. -/
def firstMatchingFmt (order : List TDFmt) (lines : List String) : Option TDFmt :=
  order.find? (fun f => lines.any (fun l => !lineSkipped l && (reMatch l.data (fmtRE f)).isSome))

/-- All six iteration orders of the three known formats (the CPython dict
key order is a fixed but implementation-defined one of these). -/
def allOrders : List (List TDFmt) :=
  [[.nv_tab, .eb_env, .nv_yaml], [.nv_tab, .nv_yaml, .eb_env],
   [.eb_env, .nv_tab, .nv_yaml], [.eb_env, .nv_yaml, .nv_tab],
   [.nv_yaml, .nv_tab, .eb_env], [.nv_yaml, .eb_env, .nv_tab]]

/- Helper lemmas about the dictionary operations and the comma split. -/

theorem alookup_map_update {α : Type} (l : List (String × α)) (k : String) (v : α) :
    alookup (l.map (fun x => if x.1 == k then (k, v) else x)) k =
      (alookup l k).map (fun _ => v) := by
  induction l with
  | nil => simp [alookup]
  | cons x xs ih =>
      by_cases hx : (x.1 == k) = true
      · have hx2 : x.1 = k := by simpa using hx
        subst hx2
        simp [alookup, List.find?_cons]
      · have hx2 : (x.1 == k) = false := by simpa using hx
        simp only [List.map_cons, hx2, Bool.false_eq_true, if_false]
        simp only [alookup, List.find?_cons, hx2] at ih ⊢
        exact ih

theorem alookup_append_single {α : Type} (l : List (String × α)) (k : String) (v : α)
    (h : alookup l k = none) : alookup (l ++ [(k, v)]) k = some v := by
  induction l with
  | nil => simp [alookup, List.find?]
  | cons x xs ih =>
      by_cases hx : x.1 = k
      · simp [alookup, List.find?, hx] at h
      · have hx2 : (x.1 == k) = false := by simp [hx]
        simp only [alookup, List.find?, hx2] at h ⊢
        exact ih h

theorem alookup_aset {α : Type} (l : List (String × α)) (k : String) (v : α) :
    alookup (aset l k v) k = some v := by
  unfold aset
  by_cases hf : (l.find? (fun x => x.1 == k)).isSome
  · rw [if_pos hf, alookup_map_update]
    obtain ⟨x, hx⟩ := Option.isSome_iff_exists.mp hf
    simp [alookup, hx]
  · rw [if_neg hf]
    refine alookup_append_single l k v ?_
    simp only [alookup]
    rw [Option.not_isSome_iff_eq_none.mp hf]
    rfl

theorem splitComma_ne_nil (cs : List Char) : splitComma cs ≠ [] := by
  cases cs with
  | nil => simp [splitComma]
  | cons c rest =>
      simp only [splitComma]
      cases splitComma rest with
      | nil => simp
      | cons h t =>
          by_cases hc : (c == ',') = true
          · simp [hc]
          · simp [hc]

/-- Deleting spaces commutes with splitting on commas (a comma is not a
space), which is the content of the amended C2. -/
theorem splitComma_removeSpaces (cs : List Char) :
    splitComma (removeSpaces cs) = (splitComma cs).map removeSpaces := by
  induction cs with
  | nil => simp [splitComma, removeSpaces]
  | cons c rest ih =>
      obtain ⟨h, t, hs⟩ : ∃ h t, splitComma rest = h :: t := by
        cases hx : splitComma rest with
        | nil => exact absurd hx (splitComma_ne_nil rest)
        | cons a b => exact ⟨a, b, rfl⟩
      obtain ⟨h2, t2, hs2⟩ : ∃ h2 t2, splitComma (removeSpaces rest) = h2 :: t2 := by
        cases hx : splitComma (removeSpaces rest) with
        | nil => exact absurd hx (splitComma_ne_nil _)
        | cons a b => exact ⟨a, b, rfl⟩
      have hmap : h2 :: t2 = removeSpaces h :: List.map removeSpaces t := by
        rw [← hs2, ih, hs, List.map_cons]
      injection hmap with hh2 ht2
      by_cases hsp : c = ' '
      · subst hsp
        have hdrop : removeSpaces (' ' :: rest) = removeSpaces rest := by
          simp [removeSpaces]
        rw [hdrop, ih, hs]
        simp [splitComma, hs, removeSpaces]
      · have hkeep : removeSpaces (c :: rest) = c :: removeSpaces rest := by
          simp [removeSpaces, hsp]
        rw [hkeep]
        by_cases hcm : c = ','
        · subst hcm
          simp only [splitComma, hs, hs2, List.map_cons]
          simp [hh2, ht2, removeSpaces]
        · have hcm2 : (c == ',') = false := by simp [hcm]
          simp only [splitComma, hs, hs2, hcm2, Bool.false_eq_true, if_false, List.map_cons]
          rw [hh2, ht2]
          simp [removeSpaces, hsp]

theorem pyArgSplit_eq_map (s : String) :
    pyArgSplit s = (splitComma s.data).map (fun a => String.mk (removeSpaces a)) := by
  unfold pyArgSplit
  rw [splitComma_removeSpaces, List.map_map]
  rfl

/- Concrete contexts used by the claim theorems. -/

/-- A callable binding returning its received arguments joined by `|`, to
observe exactly the argument list the engine passes. -/
def fGreet : List String → Except Err PyVal :=
  fun args => .ok (.str (String.intercalate "|" args))

/-- A context whose only binding is the replacement method GREET. -/
def ctxGreet : Context :=
  .mk false true false false true true "." [] [] ["."] .nv_tab [] [("GREET", fGreet)] []

/-- C1: with bindings A -> "@B@" and B -> "done" (and nothing else bound),
resolving the line "@A@" terminates and yields "done": the first iteration
replaces the only placeholder giving "@B@", the placeholder introduced by
that substitution is found and replaced on the next iteration giving
"done", and the third iteration finds no placeholder and stops.  All other
context components are arbitrary, and any fuel at least 3 suffices. -/
theorem c1_recursive_substitution (fuel : Nat)
    (f1 f2 f3 f4 f5 f6 : Bool) (nm : String) (tn : List String)
    (td : List (String × String)) (dn : List String) (fmt : TDFmt)
    (me : List (String × (List String → Except Err PyVal)))
    (su : List (String × Context)) :
    lineParser (fuel + 3) "@A@"
      (.mk f1 f2 f3 f4 f5 f6 nm tn td dn fmt [("A", .str "@B@"), ("B", .str "done")] me su) =
      .ok "done" := rfl

/-- C2 counterexample: with the callable binding GREET and argument string
"hello world", the engine passes "helloworld" — the interior space of the
single argument is deleted, not preserved as the claim states. -/
theorem c2_interior_space_counterexample :
    ctxGreet.replace "GREET" (some "hello world") = .ok (.str "helloworld") ∧
    pyArgSplit "hello world" ≠ specArgSplit "hello world" :=
  ⟨rfl, by decide⟩

/-- C2 amended: for every callable binding and non-empty argument string,
`Context.replace` invokes the callable with the argument string split on
commas and every space character deleted from each argument — surrounding
and interior spaces alike. -/
theorem c2_args_split_despaced (ctx : Context) (tag : String)
    (f : List String → Except Err PyVal) (argsv : String)
    (hf : getattrM ctx tag = some (.fn f)) (hne : argsv ≠ "") :
    ctx.replace tag (some argsv) =
      f ((splitComma argsv.data).map (fun a => String.mk (removeSpaces a))) := by
  have htruthy : pyTruthyS (some argsv) = true := by
    have : argsv.isEmpty = false := by
      rw [Bool.eq_false_iff]
      intro hx
      exact hne ((String.isEmpty_iff argsv).mp hx)
    simp [pyTruthyS, this]
  simp only [Context.replace, hf, htruthy, if_true]
  rw [← pyArgSplit_eq_map]
  simp [Option.getD]

theorem c2_args_split_despaced_witness :
    ctxGreet.replace "GREET" (some "a, b") =
      fGreet ((splitComma "a, b".data).map (fun a => String.mk (removeSpaces a))) :=
  c2_args_split_despaced ctxGreet "GREET" fGreet "a, b" rfl (by decide)

/-- C4 counterexample: in the line "@@@@@@tag@@@" every `@` belongs to an
`@@@` escape run (two adjacent runs, then one run), yet the escape run at
offset 2 is taken as the boundary of a tag reference: with `tag` bound to
the empty string the resolver substitutes it and returns "@@@", whereas
the claim demands no substitution and the pure unescape "@@tag@". -/
theorem c4_escape_run_counterexample :
    lineParser 10 "@@@@@@tag@@@"
      (.mk false true false false true true "." [] [] ["."] .nv_tab [("tag", .str "")] [] []) =
      .ok "@@@" ∧
    String.mk (unescapeAts "@@@@@@tag@@@".data) = "@@tag@" ∧
    ("@@@" : String) ≠ "@@tag@" :=
  ⟨rfl, rfl, by decide⟩

/-- C4 amended (the spec's own two example lines): "a@@@b" and "@@@FOO@"
match no tag reference under any context, so resolution performs no
substitution and returns the line with each `@@@` unescaped to `@`
exactly once — "a@b" and "@FOO@". -/
theorem c4_escape_examples (ctx : Context) (fuel : Nat) :
    lineParser (fuel + 1) "a@@@b" ctx = .ok "a@b" ∧
    lineParser (fuel + 1) "@@@FOO@" ctx = .ok "@FOO@" :=
  ⟨rfl, rfl⟩

/-- C5 counterexample: with default tags allowed, no binding for C, and
the default table holding C -> "", `Context.replace` does not return the
stored empty default: the `if newtext:` truthiness test skips it and the
lookup falls through to the unknown-tag handling, raising ValueError. -/
theorem c5_empty_default_counterexample :
    Context.replace (.mk false true false false true true "." [] [("C", "")] ["."] .nv_tab [] [] [])
      "C" none = .error (.valueError "C") := rfl

/-- C5 amended: with `ALLOW_DEFAULT_TAGS` set, no binding for the tag, and
a non-empty default stored, `Context.replace` returns that default; the
empty string is the one stored default value that instead falls through
to the unknown-tag handling. -/
theorem c5_default_fallback (ctx : Context) (tag v : String) (argsv : Option String)
    (h1 : getattrM ctx tag = none) (h2 : ctx.ALLOW_DEFAULT_TAGS = true)
    (h3 : ctx.getDefault tag = some v) (h4 : v ≠ "") :
    ctx.replace tag argsv = .ok (.str v) := by
  have htruthy : pyTruthyS (some v) = true := by
    have : v.isEmpty = false := by
      rw [Bool.eq_false_iff]
      intro hx
      exact h4 ((String.isEmpty_iff v).mp hx)
    simp [pyTruthyS, this]
  simp [Context.replace, h1, h2, h3, htruthy]

theorem c5_default_fallback_witness :
    Context.replace (.mk false true false false true true "." [] [("C", "dft")] ["."] .nv_tab [] [] [])
      "C" none = .ok (.str "dft") :=
  c5_default_fallback
    (.mk false true false false true true "." [] [("C", "dft")] ["."] .nv_tab [] [] [])
    "C" "dft" none rfl rfl rfl (by decide)

/-- C3 counterexample: resolving "@ns.X@" under a fresh context (which has
no child context at all) does not raise UnknownContextError — the
UnknownContext class's only raise site is commented out in the source.
Instead the namespace miss is downgraded to the synthetic tag "UNDEFINED"
and the resolution fails with the re-raised ValueError for that tag. -/
theorem c3_unknown_context_counterexample :
    lineParser 10 "@ns.X@" (freshContext ".") = .error (.valueError2 "UNDEFINED" "@ns.X@") ∧
    Err.valueError2 "UNDEFINED" "@ns.X@" ≠ .unknownContext "ns" :=
  ⟨rfl, by decide⟩

/-- C3 amended: for every context not literally named "gotns", with no
child context named "ns" and with "UNDEFINED" neither bound nor defaulted
and unknown tags disallowed (the defaults), resolving "@ns.X@" prints a
no-such-context warning, substitutes the synthetic tag name "UNDEFINED",
and raises the undefined-tag ValueError for "UNDEFINED" — never
UnknownContextError. -/
theorem c3_undefined_synthetic_tag (ctx : Context)
    (h1 : ctx.name ≠ "gotns")
    (h2 : ctx.getContext "ns" = none)
    (h3 : getattrM ctx "UNDEFINED" = none)
    (h4 : ctx.getDefault "UNDEFINED" = none)
    (h5 : ctx.ALLOW_UNKNOWN_TAGS = false) :
    lineParser 1 "@ns.X@" ctx = .error (.valueError2 "UNDEFINED" "@ns.X@") := by
  have hname : (ctx.name == "gotns") = false := by
    simpa [beq_eq_false_iff_ne] using h1
  have hsearch : reSearch "@ns.X@".data rex =
      some (0, 6, [(2, 1, 5), (5, 4, 5), (3, 1, 4), (4, 1, 3), (1, 0, 0)]) := rfl
  have hns : ("ns".isEmpty) = false := rfl
  simp only [lineParser, hsearch]
  simp [capStr, capGet, capStart, pyTruthyS, hname, h2, h3, h4, h5, hns, Context.replace]

theorem c3_undefined_synthetic_tag_witness :
    lineParser 1 "@ns.X@" (freshContext ".") = .error (.valueError2 "UNDEFINED" "@ns.X@") :=
  c3_undefined_synthetic_tag (freshContext ".") (by decide) rfl rfl rfl rfl

/-- C6: on a definitions source whose single line is `export FOO='bar'`
(matched by both the eb_env and the nv_yaml patterns but not by nv_tab),
auto-detection does not adopt the first matching format: whatever the
dictionary iteration order, the dead `auto_rex` early exit never fires,
every matching format overwrites `self.tdrex`, and the format adopted for
the source is the last matching one in iteration order, which differs
from the first in all six possible orders. -/
theorem c6_autoselect_adopts_last_not_first :
    allOrders.all (fun order =>
      match firstMatchingFmt order ["export FOO='bar'"] with
      | some f => (autoSelectTD order ["export FOO='bar'"] (freshContext ".")).tdrexSel != f
      | none => false) = true := rfl

theorem attrs_withAttrsTagNames (ctx : Context) (a : List (String × PyVal)) (t : List String) :
    (ctx.withAttrsTagNames a t).attrs = a := by
  cases ctx
  rfl

/-- C7: a second `tagDefine` of a tag already bound in the context, with
overrides and appends both disabled, raises the duplicate-definition
exception; with appends enabled (overrides still disabled) it instead
rebinds the tag to the existing value, the separator ", ", and the new
value, with a warning. -/
theorem c7_duplicate_bind_policy :
    (∀ (ctx : Context) (tag old v : String),
      alookup ctx.attrs tag = some (.str old) →
      ctx.ALLOW_TAG_OVERRIDES = false → ctx.ENABLE_TAG_APPENDS = false →
      ctx.tagDefine tag v = .error (.exception "duplicate tag definition")) ∧
    (∀ (ctx : Context) (tag old v : String),
      alookup ctx.attrs tag = some (.str old) →
      ctx.ALLOW_TAG_OVERRIDES = false → ctx.ENABLE_TAG_APPENDS = true →
      ∃ ctx2, ctx.tagDefine tag v = .ok ctx2 ∧
        alookup ctx2.attrs tag = some (.str (old ++ ", " ++ v))) := by
  constructor
  · intro ctx tag old v h hov hap
    have hhas : ctx.hasattrB tag = true := by simp [Context.hasattrB, h]
    simp [Context.tagDefine, hhas, hov, hap]
  · intro ctx tag old v h hov hap
    have hhas : ctx.hasattrB tag = true := by simp [Context.hasattrB, h]
    have hval : getattrVal ctx tag = some (.str old) := by
      simp [getattrVal, getattrM, h]
    refine ⟨ctx.withAttrsTagNames (aset ctx.attrs tag (.str (old ++ ", " ++ v)))
      (ctx.tagNames ++ [tag]), ?_, ?_⟩
    · simp [Context.tagDefine, hhas, hov, hap, hval]
    · rw [attrs_withAttrsTagNames]
      exact alookup_aset ctx.attrs tag _

def ctxDupW : Context :=
  .mk false true false false true true "." ["A"] [] ["."] .nv_tab [("A", .str "x")] [] []

def ctxAppW : Context :=
  .mk false true false true true true "." ["A"] [] ["."] .nv_tab [("A", .str "x")] [] []

theorem c7_duplicate_bind_policy_witness :
    ctxDupW.tagDefine "A" "y" = .error (.exception "duplicate tag definition") ∧
    ∃ ctx2, ctxAppW.tagDefine "A" "y" = .ok ctx2 ∧
      alookup ctx2.attrs "A" = some (.str "x, y") :=
  ⟨c7_duplicate_bind_policy.1 ctxDupW "A" "x" "y" rfl rfl rfl,
   c7_duplicate_bind_policy.2 ctxAppW "A" "x" "y" rfl rfl rfl⟩

/-- C8 counterexample: loading the two-line source `A<TAB>x`, `A<TAB>y`
under default flags (overrides and appends disabled) does not recover the
duplicate-bind conflict locally: `tagDefine` raises a bare Exception,
which the loader's `except ValueError` clause does not catch, so the load
as a whole fails instead of warning and skipping the line. -/
theorem c8_duplicate_aborts_load_counterexample :
    loadTagDefs [.nv_tab, .eb_env, .nv_yaml] (freshContext ".") ["A\tx", "A\ty"] =
      .error (.exception "duplicate tag definition") := rfl

theorem loadLine_malformed (ctx : Context) (m : String)
    (hm : ∀ f : TDFmt, reMatch m.data (fmtRE f) = none) :
    loadLine ctx m = .ok ctx := by
  unfold loadLine
  by_cases hs : lineSkipped m = true
  · simp [hs]
  · simp [hs, hm ctx.tdrexSel]

theorem loadLines_insert_malformed (m : String)
    (hm : ∀ f : TDFmt, reMatch m.data (fmtRE f) = none) :
    ∀ (pre : List String) (ctx : Context) (post : List String),
      loadLines ctx (pre ++ m :: post) = loadLines ctx (pre ++ post) := by
  intro pre
  induction pre with
  | nil =>
      intro ctx post
      simp [loadLines, loadLine_malformed ctx m hm]
  | cons l ls ih =>
      intro ctx post
      simp only [List.cons_append, loadLines]
      cases loadLine ctx l with
      | ok c2 => exact ih c2 post
      | error e => rfl

theorem autoSelect_insert_malformed (m : String)
    (hm : ∀ f : TDFmt, reMatch m.data (fmtRE f) = none) (pre post : List String) :
    ∀ (order : List TDFmt) (ctx : Context),
      autoSelectTD order (pre ++ m :: post) ctx = autoSelectTD order (pre ++ post) ctx := by
  intro order
  induction order with
  | nil => intro ctx; rfl
  | cons f fs ih =>
      intro ctx
      have hany : ((pre ++ m :: post).any fun l => !lineSkipped l && (reMatch l.data (fmtRE f)).isSome) =
          ((pre ++ post).any fun l => !lineSkipped l && (reMatch l.data (fmtRE f)).isSome) := by
        simp [List.any_append, List.any_cons, hm f]
      simp only [autoSelectTD, List.foldl_cons] at ih ⊢
      rw [hany]
      by_cases hc : ((pre ++ post).any fun l => !lineSkipped l && (reMatch l.data (fmtRE f)).isSome) = true
      · rw [if_pos hc]
        exact ih _
      · rw [if_neg hc]
        exact ih _

/-- C8 amended: a malformed line — one matching no known format — is
warned and skipped without affecting the rest of the load (inserting such
a line anywhere changes nothing, including auto-detection), and a load
containing only well-formed and malformed lines succeeds; but a
duplicate-bind conflict raises an exception the per-line handler does not
catch, aborting the whole load (the counterexample). -/
theorem c8_malformed_skipped_duplicate_fatal :
    (∀ (ctx : Context) (order : List TDFmt) (pre post : List String) (m : String),
      (∀ f : TDFmt, reMatch m.data (fmtRE f) = none) →
      loadTagDefs order ctx (pre ++ m :: post) = loadTagDefs order ctx (pre ++ post)) ∧
    (∃ ctx2, loadTagDefs [.nv_tab, .eb_env, .nv_yaml] (freshContext ".")
        ["A\tx", "garbage!!", "B\ty"] = .ok ctx2 ∧
      alookup ctx2.attrs "A" = some (.str "x") ∧ alookup ctx2.attrs "B" = some (.str "y")) := by
  constructor
  · intro ctx order pre post m hm
    unfold loadTagDefs
    by_cases hA : ctx.AUTO_SELECT_TD = true
    · rw [if_pos hA, if_pos hA, autoSelect_insert_malformed m hm pre post order ctx,
        loadLines_insert_malformed m hm pre _ post]
    · rw [if_neg hA, if_neg hA, loadLines_insert_malformed m hm pre ctx post]
  · exact ⟨_, rfl, rfl, rfl⟩

theorem c8_malformed_skipped_duplicate_fatal_witness :
    loadTagDefs [.nv_tab, .eb_env, .nv_yaml] (freshContext ".")
        (["A\tx"] ++ "garbage!!" :: ["B\ty"]) =
      loadTagDefs [.nv_tab, .eb_env, .nv_yaml] (freshContext ".") (["A\tx"] ++ ["B\ty"]) :=
  c8_malformed_skipped_duplicate_fatal.1 (freshContext ".") [.nv_tab, .eb_env, .nv_yaml]
    ["A\tx"] ["B\ty"] "garbage!!" (fun f => by cases f <;> rfl)

/-- A context with tag appends enabled and nothing user-bound, for the C9
append-branch observation. -/
def ctxNameApp : Context := .mk false true false true true true "." [] [] ["."] .nv_tab [] [] []

/-- C9: because bindings live in the instance attribute namespace, a tag
name colliding with a pre-existing Context attribute or method ("name",
"parent", "subcontexts", "replace", "curdir") already takes the
duplicate-definition branch on its very first `tagDefine`: under default
flags it raises, and with appends enabled the "name" tag is rebound to
the engine value "." joined with the new text.  `Context.replace` on such
names resolves the engine attribute itself even though no user tag was
ever defined: the context's own name, the invoked `curdir()` result, the
parent Context object, the subcontext dictionary, and for the method
`replace` a zero-argument invocation that raises TypeError. -/
theorem c9_engine_attribute_collision :
    ((freshContext ".").tagDefine "name" "v" = .error (.exception "duplicate tag definition")) ∧
    ((freshContext ".").tagDefine "parent" "v" = .error (.exception "duplicate tag definition")) ∧
    ((freshContext ".").tagDefine "subcontexts" "v" = .error (.exception "duplicate tag definition")) ∧
    ((freshContext ".").tagDefine "replace" "v" = .error (.exception "duplicate tag definition")) ∧
    ((freshContext ".").tagDefine "curdir" "v" = .error (.exception "duplicate tag definition")) ∧
    ((ctxNameApp.tagDefine "name" "v").map (fun c => alookup c.attrs "name") =
      .ok (some (.str "., v"))) ∧
    ((freshContext ".").replace "name" none = .ok (.str ".")) ∧
    ((freshContext ".").replace "curdir" none = .ok (.str ".")) ∧
    ((freshContext ".").replace "parent" none = .ok .contextObj) ∧
    ((freshContext ".").replace "subcontexts" none = .ok .dictObj) ∧
    ((freshContext ".").replace "replace" none = .error (.typeError "replace")) :=
  ⟨rfl, rfl, rfl, rfl, rfl, rfl, rfl, rfl, rfl, rfl, rfl⟩

/-- C10: with exactly two positional arguments (`len(sys.argv) == 3`) the
usage check `argc < 3` passes and the program crashes with an uncaught
IndexError reading `sys.argv[3]`, without printing the usage message;
zero or one positional argument (argv length 1 or 2) prints usage and
exits non-zero; three or more positional arguments proceed normally. -/
theorem c10_cli_arguments (argv : List String) :
    (argv.length = 3 → filterMain argv = .indexErrorCrash) ∧
    (argv.length = 1 ∨ argv.length = 2 → filterMain argv = .usageExit) ∧
    (4 ≤ argv.length → ∃ t i o, filterMain argv = .run t i o) := by
  refine ⟨?_, ?_, ?_⟩
  · intro h
    have h3 : ¬ argv.length < 3 := by omega
    have hnone : argv[3]? = none := by
      apply List.getElem?_eq_none
      omega
    simp [filterMain, h3, hnone]
  · intro h
    have h3 : argv.length < 3 := by rcases h with h | h <;> omega
    simp [filterMain, h3]
  · intro h
    have h3 : ¬ argv.length < 3 := by omega
    cases hx : argv[3]? with
    | none =>
        exfalso
        have := List.getElem?_eq_none_iff.mp hx
        omega
    | some x =>
        exact ⟨argv.getD 1 "", argv.getD 2 "", x, by simp [filterMain, h3, hx]⟩

theorem c10_cli_arguments_witness :
    filterMain ["filter.py", "tags.txt", "in.txt"] = .indexErrorCrash ∧
    filterMain ["filter.py"] = .usageExit ∧
    filterMain ["filter.py", "tags.txt"] = .usageExit :=
  ⟨(c10_cli_arguments _).1 rfl, (c10_cli_arguments _).2.1 (Or.inl rfl),
   (c10_cli_arguments _).2.1 (Or.inr rfl)⟩

end UfoFilter
